import Mathlib

/-!
# paratext: `src/python/numpy_helper.hpp`

A shallow embedding of the NumPy marshaling helpers of ParaText and the
properties of its builders.

Conventions of the embedding.

* A `PyObject *` is an `Option`: `none` is the `NULL` pointer.
* The host runtime (CPython and NumPy) is a collaborator outside the
  repository.  Its primitives are modelled from their documented behaviour;
  whether an allocation or a text-object construction succeeds is decided by a
  `Host` oracle, so every theorem holds for every host.
* Every call into the host runtime and into a populator is appended to the
  `trace` of the `World`, which makes statements such as "releases exactly
  once" or "allocates no array" statements about that trace.
* A C++ function either returns, or throws, or runs into undefined behaviour
  (a dereference of a `NULL` array); `Outcome` has one constructor for each.
* An array is owned by the builder until it is returned, so it is passed by
  value; the adapter, which aliases the array in the source, carries it.
* A `for` loop over `n` elements is a structural recursion on the number of
  iterations that are left, started with `n`.
-/

namespace NumpyHelper

/-! ## Types of the host runtime -/

/-- Modelled from the spec: the element-type tags of the host runtime that the
header names (the `NPY_*` constants of `numpy/arrayobject.h`), kept symbolic. -/
inductive NPY_TYPES
  | NPY_UINT8 | NPY_INT8 | NPY_UINT16 | NPY_INT16 | NPY_UINT32 | NPY_INT32
  | NPY_UINT64 | NPY_INT64 | NPY_FLOAT | NPY_DOUBLE | NPY_OBJECT
deriving DecidableEq

/-- The ten arithmetic element types for which `numpy_type` is specialised. -/
inductive scalar_type
  | uint8_t | int8_t | uint16_t | int16_t | uint32_t | int32_t
  | uint64_t | int64_t | float | double
deriving DecidableEq

/-- The element types for which `numpy_type` is specialised: the arithmetic
ones and `std::string`. -/
inductive value_type
  | arithmetic (T : scalar_type)
  | std_string
deriving DecidableEq

/-- The static member `numpy_type<T>::id` (lines 44-57). -/
def numpy_type.id : value_type → NPY_TYPES
  | .arithmetic .uint8_t  => .NPY_UINT8
  | .arithmetic .int8_t   => .NPY_INT8
  | .arithmetic .uint16_t => .NPY_UINT16
  | .arithmetic .int16_t  => .NPY_INT16
  | .arithmetic .uint32_t => .NPY_UINT32
  | .arithmetic .int32_t  => .NPY_INT32
  | .arithmetic .uint64_t => .NPY_UINT64
  | .arithmetic .int64_t  => .NPY_INT64
  | .arithmetic .float    => .NPY_FLOAT
  | .arithmetic .double   => .NPY_DOUBLE
  | .std_string           => .NPY_OBJECT

/-- Modelled from the spec: the values of the arithmetic element types (8, 16,
32 and 64-bit unsigned and signed integers; `float` and `double` as their
32 and 64-bit encodings, which a copy preserves). -/
@[reducible] def c_type : scalar_type → Type
  | .uint8_t  => Fin (2 ^ 8)
  | .int8_t   => { z : Int // -(2 ^ 7) ≤ z ∧ z < 2 ^ 7 }
  | .uint16_t => Fin (2 ^ 16)
  | .int16_t  => { z : Int // -(2 ^ 15) ≤ z ∧ z < 2 ^ 15 }
  | .uint32_t => Fin (2 ^ 32)
  | .int32_t  => { z : Int // -(2 ^ 31) ≤ z ∧ z < 2 ^ 31 }
  | .uint64_t => Fin (2 ^ 64)
  | .int64_t  => { z : Int // -(2 ^ 63) ≤ z ∧ z < 2 ^ 63 }
  | .float    => Fin (2 ^ 32)
  | .double   => Fin (2 ^ 64)

/-- A `std::type_index`: the token of one of the eleven element types, or the
token of any other C++ type. -/
inductive type_index
  | of (T : value_type)
  | other (name : String)
deriving DecidableEq

/-- A C++ exception in flight. -/
inductive cpp_exception
  | logic_error (what : String)
  | other (what : String)
deriving DecidableEq

/-- Modelled from the spec: an object of the host runtime that a boxed slot can
refer to, the `None` singleton (the empty sentinel) or a text object, which is
identified by the number of the constructor call that made it. -/
inductive PyObject
  | Py_None
  | unicode (id : Nat) (content : String)
deriving DecidableEq

/-- Modelled from the spec: a one-dimensional array of the host runtime.  A
cell of a bulk array is `none` while it is not initialised; a slot of a boxed
array is `none` while it holds `NULL`. -/
structure PyArrayObject (E : Type) where
  type_num : NPY_TYPES
  dim : Nat
  data : List (Option E)
deriving DecidableEq

/-- The `PyObject *` that `populate` and `build_populator` return: `NULL`,
a bulk array of some arithmetic type, or a boxed array. -/
inductive ArrayPtr
  | NULL
  | bulk (T : scalar_type) (a : PyArrayObject (c_type T))
  | boxed (a : PyArrayObject PyObject)

/-- One call into the host runtime or into a populator. -/
inductive Event
  | PyArray_SimpleNew (dim : Nat) (type_num : NPY_TYPES) (ok : Bool)
  | PyUnicode_FromStringAndSize (s : String) (result : Option PyObject)
  | Py_INCREF (o : PyObject)
  | Py_DECREF (o : PyObject)
  | array_dealloc (type_num : NPY_TYPES) (dim : Nat) (slots : List (Option PyObject))
  | insert_into_buffer (T : scalar_type)
  | insert_and_forget
deriving DecidableEq

/-- The state of the host runtime as far as the builders can change it. -/
structure World where
  allocations : Nat
  objects : Nat
  trace : List Event
deriving DecidableEq

/-- The oracle of the host runtime: whether the allocation with a given call
number, length and tag succeeds, and whether the text-object construction with
a given call number and content succeeds. -/
structure Host where
  simple_new_ok : Nat → Nat → NPY_TYPES → Bool
  unicode_ok : Nat → String → Bool

/-- The three ways a C++ function can end, with the state it leaves. -/
inductive Outcome (σ α : Type)
  | returned (value : α) (s : σ)
  | thrown (e : cpp_exception) (s : σ)
  | undefined_behaviour
deriving DecidableEq

/-! ## Primitives of the host runtime -/

/-- Modelled from the spec: `allocate(length, element_type_tag)`.  The call
`PyArray_SimpleNew(1, fdims, type_num)` yields `NULL` on failure, and otherwise
a fresh array of `dim` cells, none initialised (`NULL` in a boxed array). -/
def PyArray_SimpleNew (E : Type) (h : Host) (w : World) (dim : Nat) (type_num : NPY_TYPES) :
    Option (PyArrayObject E) × World :=
  let ok := h.simple_new_ok w.allocations dim type_num
  (if ok then some ⟨type_num, dim, List.replicate dim none⟩ else none,
   { w with allocations := w.allocations + 1,
            trace := w.trace ++ [Event.PyArray_SimpleNew dim type_num ok] })

/-- Modelled from the spec: `raw_pointer(array)`.  `PyArray_DATA` reads a field
of the array object, so it is undefined (`none`) on `NULL`. -/
def PyArray_DATA {E : Type} (array : Option (PyArrayObject E)) : Option (List (Option E)) :=
  array.map (fun a => a.data)

/-- Modelled from the spec: `slot_pointer(array, index)` followed by a read of
the slot.  `PyArray_GETPTR1` reads fields of the array object, so it is
undefined (`none`) on `NULL`, and so is a slot outside the array. -/
def PyArray_GETPTR1 {E : Type} (array : Option (PyArrayObject E)) (i : Nat) : Option (Option E) :=
  match array with
  | none => none
  | some a => a.data[i]?

/-- The assignment `*ref = p` through a pointer obtained from `PyArray_GETPTR1`. -/
def store {E : Type} (array : Option (PyArrayObject E)) (i : Nat) (p : Option E) :
    Option (PyArrayObject E) :=
  array.map (fun a => { a with data := a.data.set i p })

/-- Modelled from the spec: `make_text_object(bytes, length)`.  The call
`PyUnicode_FromStringAndSize` yields `NULL` on failure and otherwise a new
owned reference to a text object with the given content. -/
def PyUnicode_FromStringAndSize (h : Host) (w : World) (s : String) : Option PyObject × World :=
  let r := if h.unicode_ok w.objects s then some (PyObject.unicode w.objects s) else none
  (r, { w with objects := w.objects + 1,
               trace := w.trace ++ [Event.PyUnicode_FromStringAndSize s r] })

/-- Modelled from the spec: `release(reference)`; `Py_XDECREF` ignores `NULL`. -/
def Py_XDECREF (w : World) (p : Option PyObject) : World :=
  match p with
  | none => w
  | some o => { w with trace := w.trace ++ [Event.Py_DECREF o] }

/-- Modelled from the spec: `acquire(reference)`; `Py_XINCREF` ignores `NULL`. -/
def Py_XINCREF (w : World) (p : Option PyObject) : World :=
  match p with
  | none => w
  | some o => { w with trace := w.trace ++ [Event.Py_INCREF o] }

/-- Modelled from the spec: `release(array)` on a bulk array.  The builder
holds the only reference, so `Py_XDECREF(array)` frees the array; it ignores
`NULL`.  A bulk array holds no references. -/
def Py_XDECREF_bulk {E : Type} (w : World) (array : Option (PyArrayObject E)) : World :=
  match array with
  | none => w
  | some a => { w with trace := w.trace ++ [Event.array_dealloc a.type_num a.dim []] }

/-- Modelled from the spec: `release(array)` on a boxed array.  The event
records the slots of the array at the moment it is freed. -/
def Py_XDECREF_boxed (w : World) (array : Option (PyArrayObject PyObject)) : World :=
  match array with
  | none => w
  | some a => { w with trace := w.trace ++ [Event.array_dealloc a.type_num a.dim a.data] }

/-! ## Native sources -/

/-- A container as the builders use it: `size()` and `operator[]`.  Element
`i` of `elems` is what `container[i]` does, it yields a value or throws. -/
structure Container (V : Type) where
  elems : List (Except cpp_exception V)

/-- The member `container.size()`. -/
def Container.size {V : Type} (container : Container V) : Nat :=
  container.elems.length

/-- A `std::vector` holding `xs`: no access throws. -/
def std_vector {V : Type} (xs : List V) : Container V :=
  ⟨xs.map Except.ok⟩

/-- An iterator: a position in a sequence.  Element `i` of `elems` is what
dereferencing the iterator at position `i` does. -/
structure Iterator (V : Type) where
  elems : List (Except cpp_exception V)
  pos : Nat

/-- The call `std::distance(first, second)`, undefined (`none`) when `second`
cannot be reached from `first`. -/
def std_distance {V : Type} (range : Iterator V × Iterator V) : Option Nat :=
  if range.1.pos ≤ range.2.pos then some (range.2.pos - range.1.pos) else none

/-- The iterator pair `(container.begin(), container.end())`, which ranges over
the whole sequence of the container. -/
def Container.range {V : Type} (container : Container V) : Iterator V × Iterator V :=
  (⟨container.elems, 0⟩, ⟨container.elems, container.size⟩)

/-! ## The builders -/

/-- The function `as_python_string` (lines 63-65). -/
def as_python_string (h : Host) (w : World) (inp : String) : Option PyObject × World :=
  PyUnicode_FromStringAndSize h w inp

/-- The loop of the arithmetic container builder (lines 79-81):
`data[i] = container[i]` for `i` up to `container.size()`. -/
def build_array_impl.arithmetic_loop {V : Type} (container : Container V) :
    Nat → Nat → List (Option V) → World → Outcome World (List (Option V))
  | 0, _, data, w => .returned data w
  | todo + 1, i, data, w =>
    match container.elems[i]? with
    | none => .undefined_behaviour
    | some (.error e) => .thrown e w
    | some (.ok v) =>
      if i < data.length then
        build_array_impl.arithmetic_loop container todo (i + 1) (data.set i (some v)) w
      else .undefined_behaviour

/-- The arithmetic specialisation of `build_array_impl` (lines 70-91). -/
def build_array_impl.arithmetic (h : Host) (T : scalar_type) (container : Container (c_type T))
    (w : World) : Outcome World (Option (PyArrayObject (c_type T))) :=
  let r := PyArray_SimpleNew (c_type T) h w container.size (numpy_type.id (.arithmetic T))
  match PyArray_DATA r.1 with
  | none => .undefined_behaviour
  | some data =>
    match build_array_impl.arithmetic_loop container container.size 0 data r.2 with
    | .returned data1 w1 => .returned (r.1.map (fun a => { a with data := data1 })) w1
    | .thrown e w1 => .thrown e (Py_XDECREF_bulk w1 r.1)
    | .undefined_behaviour => .undefined_behaviour

/-- The loop of the text container builder (lines 103-108). -/
def build_array_impl.string_loop (h : Host) (container : Container String) :
    Nat → Nat → Option (PyArrayObject PyObject) → World →
      Outcome (Option (PyArrayObject PyObject) × World) Unit
  | 0, _, array, w => .returned () (array, w)
  | todo + 1, i, array, w =>
    match PyArray_GETPTR1 array i with
    | none => .undefined_behaviour
    | some old =>
      match container.elems[i]? with
      | none => .undefined_behaviour
      | some (.error e) => .thrown e (array, w)
      | some (.ok s) =>
        let r := as_python_string h w s
        build_array_impl.string_loop h container todo (i + 1) (store array i r.1)
          (Py_XDECREF r.2 old)

/-- The loop of the catch block of the text builders (lines 111-116 and
172-178): for every `i` below `sz`, release the slot, store `Py_None` and
acquire what the slot now holds.  The result is `none` when the loop
dereferences a `NULL` array. -/
def rollback_loop :
    Nat → Nat → Option (PyArrayObject PyObject) → World →
      Option (Option (PyArrayObject PyObject) × World)
  | 0, _, array, w => some (array, w)
  | todo + 1, i, array, w =>
    match PyArray_GETPTR1 array i with
    | none => none
    | some old =>
      match PyArray_GETPTR1 (store array i (some PyObject.Py_None)) i with
      | none => none
      | some cur =>
        rollback_loop todo (i + 1) (store array i (some PyObject.Py_None))
          (Py_XINCREF (Py_XDECREF w old) cur)

/-- The `std::string` specialisation of `build_array_impl` (lines 93-123). -/
def build_array_impl.string (h : Host) (container : Container String) (w : World) :
    Outcome World (Option (PyArrayObject PyObject)) :=
  let sz := container.size
  let r := PyArray_SimpleNew PyObject h w sz .NPY_OBJECT
  match build_array_impl.string_loop h container container.size 0 r.1 r.2 with
  | .returned _ s => .returned s.1 s.2
  | .thrown e s =>
    match rollback_loop sz 0 s.1 s.2 with
    | none => .undefined_behaviour
    | some s1 => .thrown e (Py_XDECREF_boxed s1.2 s1.1)
  | .undefined_behaviour => .undefined_behaviour

/-- The loop of the arithmetic range builder (lines 139-142): `data[i] = *it`
while `it` walks from `range.first` to `range.second`. -/
def build_array_from_range_impl.arithmetic_loop {V : Type} :
    Nat → Iterator V → Nat → List (Option V) → World → Outcome World (List (Option V))
  | 0, _, _, data, w => .returned data w
  | todo + 1, it, i, data, w =>
    match it.elems[it.pos]? with
    | none => .undefined_behaviour
    | some (.error e) => .thrown e w
    | some (.ok v) =>
      if i < data.length then
        build_array_from_range_impl.arithmetic_loop todo { it with pos := it.pos + 1 } (i + 1)
          (data.set i (some v)) w
      else .undefined_behaviour

/-- The arithmetic specialisation of `build_array_from_range_impl`
(lines 129-151). -/
def build_array_from_range_impl.arithmetic (h : Host) (T : scalar_type)
    (range : Iterator (c_type T) × Iterator (c_type T)) (w : World) :
    Outcome World (Option (PyArrayObject (c_type T))) :=
  match std_distance range with
  | none => .undefined_behaviour
  | some n =>
    let r := PyArray_SimpleNew (c_type T) h w n (numpy_type.id (.arithmetic T))
    match PyArray_DATA r.1 with
    | none => .undefined_behaviour
    | some data =>
      match build_array_from_range_impl.arithmetic_loop n range.1 0 data r.2 with
      | .returned data1 w1 => .returned (r.1.map (fun a => { a with data := data1 })) w1
      | .thrown e w1 => .thrown e (Py_XDECREF_bulk w1 r.1)
      | .undefined_behaviour => .undefined_behaviour

/-- The loop of the text range builder (lines 163-169). -/
def build_array_from_range_impl.string_loop (h : Host) :
    Nat → Iterator String → Nat → Option (PyArrayObject PyObject) → World →
      Outcome (Option (PyArrayObject PyObject) × World) Unit
  | 0, _, _, array, w => .returned () (array, w)
  | todo + 1, it, i, array, w =>
    match PyArray_GETPTR1 array i with
    | none => .undefined_behaviour
    | some old =>
      match it.elems[it.pos]? with
      | none => .undefined_behaviour
      | some (.error e) => .thrown e (array, w)
      | some (.ok s) =>
        let r := as_python_string h w s
        build_array_from_range_impl.string_loop h todo { it with pos := it.pos + 1 } (i + 1)
          (store array i r.1) (Py_XDECREF r.2 old)

/-- The `std::string` specialisation of `build_array_from_range_impl`
(lines 153-185). -/
def build_array_from_range_impl.string (h : Host) (range : Iterator String × Iterator String)
    (w : World) : Outcome World (Option (PyArrayObject PyObject)) :=
  match std_distance range with
  | none => .undefined_behaviour
  | some sz =>
    let r := PyArray_SimpleNew PyObject h w sz .NPY_OBJECT
    match build_array_from_range_impl.string_loop h sz range.1 0 r.1 r.2 with
    | .returned _ s => .returned s.1 s.2
    | .thrown e s =>
      match rollback_loop sz 0 s.1 s.2 with
      | none => .undefined_behaviour
      | some s1 => .thrown e (Py_XDECREF_boxed s1.2 s1.1)
    | .undefined_behaviour => .undefined_behaviour

/-- The function template `build_array` (lines 302-305) on an arithmetic
container. -/
def build_array.arithmetic (h : Host) (T : scalar_type) (container : Container (c_type T))
    (w : World) : Outcome World (Option (PyArrayObject (c_type T))) :=
  build_array_impl.arithmetic h T container w

/-- The function template `build_array` (lines 302-305) on a text container. -/
def build_array.string (h : Host) (container : Container String) (w : World) :
    Outcome World (Option (PyArrayObject PyObject)) :=
  build_array_impl.string h container w

/-- The function template `build_array_from_range` (lines 307-310) on an
arithmetic range. -/
def build_array_from_range.arithmetic (h : Host) (T : scalar_type)
    (range : Iterator (c_type T) × Iterator (c_type T)) (w : World) :
    Outcome World (Option (PyArrayObject (c_type T))) :=
  build_array_from_range_impl.arithmetic h T range w

/-- The function template `build_array_from_range` (lines 307-310) on a text
range. -/
def build_array_from_range.string (h : Host) (range : Iterator String × Iterator String)
    (w : World) : Outcome World (Option (PyArrayObject PyObject)) :=
  build_array_from_range_impl.string h range w

/-! ## The sequential output adapter -/

/-- The struct `string_array_output_iterator` (lines 220-243): the cursor `i`,
the pending value `output` and the array it writes to. -/
structure string_array_output_iterator where
  i : Nat
  output : String
  array : Option (PyArrayObject PyObject)
deriving DecidableEq

/-- The constructor `string_array_output_iterator(array)` (line 221). -/
def string_array_output_iterator.init (array : Option (PyArrayObject PyObject)) :
    string_array_output_iterator :=
  ⟨0, "", array⟩

/-- The member `operator++()` (lines 223-230). -/
def string_array_output_iterator.pre_increment (h : Host) (it : string_array_output_iterator)
    (w : World) : Outcome World string_array_output_iterator :=
  let s := as_python_string h w it.output
  match PyArray_GETPTR1 it.array it.i with
  | none => .undefined_behaviour
  | some old =>
    .returned { it with array := store it.array it.i s.1, i := it.i + 1 } (Py_XDECREF s.2 old)

/-- The member `operator++(int)` (lines 232-234). -/
def string_array_output_iterator.post_increment (h : Host) (it : string_array_output_iterator)
    (w : World) : Outcome World string_array_output_iterator :=
  string_array_output_iterator.pre_increment h it w

/-- An assignment through `operator*()` (lines 236-238): `*it = s`. -/
def string_array_output_iterator.assign (it : string_array_output_iterator) (s : String) :
    string_array_output_iterator :=
  { it with output := s }

/-! ## Populators and the dispatch registry -/

/-- What a populator can do with the adapter it is given. -/
inductive adapter_op
  | assign (s : String)
  | pre_increment
  | post_increment
deriving DecidableEq

/-- A populator as `build_populator` uses it.  `insert_into_buffer` maps the
storage it is handed to the storage it leaves, or throws.  `insert_and_forget`
is the sequence of adapter operations it performs, followed by the exception
it throws, if any. -/
structure Populator where
  size : Nat
  get_type_index : type_index
  insert_into_buffer : (T : scalar_type) → List (Option (c_type T)) →
    Except cpp_exception (List (Option (c_type T)))
  insert_and_forget : List adapter_op × Option cpp_exception

/-- The adapter operations of a populator, run in order; `none` when one of
them dereferences a `NULL` array or leaves the array. -/
def run_adapter_ops (h : Host) :
    List adapter_op → string_array_output_iterator → World →
      Option (string_array_output_iterator × World)
  | [], it, w => some (it, w)
  | .assign s :: ops, it, w => run_adapter_ops h ops (it.assign s) w
  | .pre_increment :: ops, it, w =>
    match string_array_output_iterator.pre_increment h it w with
    | .returned it1 w1 => run_adapter_ops h ops it1 w1
    | _ => none
  | .post_increment :: ops, it, w =>
    match string_array_output_iterator.post_increment h it w with
    | .returned it1 w1 => run_adapter_ops h ops it1 w1
    | _ => none

/-- The member `populate` of the primary template
`derived_insert_populator_impl<Populator, T>` (lines 195-217). -/
def derived_insert_populator_impl.populate (h : Host) (T : scalar_type) (populator : Populator)
    (w : World) : Outcome World ArrayPtr :=
  let r := PyArray_SimpleNew (c_type T) h w populator.size (numpy_type.id (.arithmetic T))
  match r.1, PyArray_DATA r.1 with
  | some a, some data =>
    let w1 := { r.2 with trace := r.2.trace ++ [Event.insert_into_buffer T] }
    match populator.insert_into_buffer T data with
    | .ok data1 => .returned (.bulk T { a with data := data1 }) w1
    | .error e => .thrown e (Py_XDECREF_bulk w1 r.1)
  | _, _ => .undefined_behaviour

/-- The member `populate` of the specialisation
`derived_insert_populator_impl<Populator, std::string>` (lines 245-267). -/
def derived_insert_populator_impl.populate_string (h : Host) (populator : Populator)
    (w : World) : Outcome World ArrayPtr :=
  let r := PyArray_SimpleNew PyObject h w populator.size (numpy_type.id .std_string)
  let oit := string_array_output_iterator.init r.1
  let w1 := { r.2 with trace := r.2.trace ++ [Event.insert_and_forget] }
  match run_adapter_ops h populator.insert_and_forget.1 oit w1 with
  | none => .undefined_behaviour
  | some s =>
    match populator.insert_and_forget.2 with
    | none =>
      match s.1.array with
      | none => .returned .NULL s.2
      | some a => .returned (.boxed a) s.2
    | some e => .thrown e (Py_XDECREF_boxed s.2 s.1.array)

/-- The static map `populators` of `build_populator` (lines 271-294). -/
def populators (h : Host) : List (type_index × (Populator → World → Outcome World ArrayPtr)) :=
  [ (.of (.arithmetic .uint8_t),  derived_insert_populator_impl.populate h .uint8_t),
    (.of (.arithmetic .int8_t),   derived_insert_populator_impl.populate h .int8_t),
    (.of (.arithmetic .uint16_t), derived_insert_populator_impl.populate h .uint16_t),
    (.of (.arithmetic .int16_t),  derived_insert_populator_impl.populate h .int16_t),
    (.of (.arithmetic .uint32_t), derived_insert_populator_impl.populate h .uint32_t),
    (.of (.arithmetic .int32_t),  derived_insert_populator_impl.populate h .int32_t),
    (.of (.arithmetic .uint64_t), derived_insert_populator_impl.populate h .uint64_t),
    (.of (.arithmetic .int64_t),  derived_insert_populator_impl.populate h .int64_t),
    (.of (.arithmetic .float),    derived_insert_populator_impl.populate h .float),
    (.of (.arithmetic .double),   derived_insert_populator_impl.populate h .double),
    (.of .std_string,             derived_insert_populator_impl.populate_string h) ]

/-- The function template `build_populator` (lines 269-300). -/
def build_populator (h : Host) (populator : Populator) (w : World) : Outcome World ArrayPtr :=
  match (populators h).lookup populator.get_type_index with
  | none => .thrown (.logic_error "cannot process type") w
  | some impl => impl populator w

/-! ## Vocabulary of the statements -/

/-- The text objects made by consecutive successful constructor calls on the
given contents, the first call having number `id0`. -/
def text_objects (id0 : Nat) : List String → List (Option PyObject)
  | [] => []
  | s :: ss => some (.unicode id0 s) :: text_objects (id0 + 1) ss

/-- The events of consecutive successful constructor calls on the given
contents, the first call having number `id0`. -/
def construction_events (id0 : Nat) : List String → List Event
  | [] => []
  | s :: ss =>
    .PyUnicode_FromStringAndSize s (some (.unicode id0 s)) :: construction_events (id0 + 1) ss

/-- The events of a rollback over the given slots: each object a slot holds is
released once, and `Py_None` is acquired once for every slot. -/
def rollback_events : List (Option PyObject) → List Event
  | [] => []
  | none :: ps => .Py_INCREF .Py_None :: rollback_events ps
  | some o :: ps => .Py_DECREF o :: .Py_INCREF .Py_None :: rollback_events ps

/-- The events of one `Py_XDECREF` on the content of a slot. -/
def release_events : Option PyObject → List Event
  | none => []
  | some o => [.Py_DECREF o]

/-- The adapter operations of a populator that pushes the given values in
order: for each value `s`, the assignment `*oit = s` and one advance. -/
def pushes : List String → List adapter_op
  | [] => []
  | s :: ss => .assign s :: .pre_increment :: pushes ss

/-- The pending value of an adapter after the given values are pushed. -/
def last_output : String → List String → String
  | out, [] => out
  | _, s :: ss => last_output s ss

/-! ## Concrete inputs -/

/-- A host runtime in which every allocation and construction succeeds. -/
def host_ok : Host :=
  ⟨fun _ _ _ => true, fun _ _ => true⟩

/-- A host runtime that cannot allocate any array. -/
def host_out_of_memory : Host :=
  ⟨fun _ _ _ => false, fun _ _ => true⟩

/-- A host runtime whose text-object constructor rejects the content `"\xff"`,
which stands for the one-byte `std::string` 0xFF (not valid UTF-8). -/
def host_strict_utf8 : Host :=
  ⟨fun _ _ _ => true, fun _ s => s != "\xff"⟩

/-- The initial state: nothing allocated, nothing constructed, no call made. -/
def world0 : World :=
  ⟨0, 0, []⟩

/-- The `int32_t` values 1, 2, 3. -/
def int32_123 : List (c_type .int32_t) :=
  [⟨1, by decide⟩, ⟨2, by decide⟩, ⟨3, by decide⟩]

/-- A text container of size 3 whose element 1 throws when it is accessed. -/
def throwing_container : Container String :=
  ⟨[.ok "a", .error (.other "boom"), .ok "c"]⟩

/-- The value zero of every arithmetic element type. -/
def c_zero : (T : scalar_type) → c_type T
  | .uint8_t  => (0 : Fin (2 ^ 8))
  | .int8_t   => ⟨0, by decide⟩
  | .uint16_t => (0 : Fin (2 ^ 16))
  | .int16_t  => ⟨0, by decide⟩
  | .uint32_t => (0 : Fin (2 ^ 32))
  | .int32_t  => ⟨0, by decide⟩
  | .uint64_t => (0 : Fin (2 ^ 64))
  | .int64_t  => ⟨0, by decide⟩
  | .float    => (0 : Fin (2 ^ 32))
  | .double   => (0 : Fin (2 ^ 64))

/-- A populator of four `double` values that writes zero to every cell. -/
def double_populator : Populator :=
  ⟨4, .of (.arithmetic .double), fun T data => .ok (data.map (fun _ => some (c_zero T))), ([], none)⟩

/-- A populator that declares `bool`, a type without a registered builder. -/
def bool_populator : Populator :=
  ⟨4, .other "bool", fun T data => .ok (data.map (fun _ => some (c_zero T))), ([], none)⟩

/-- A text populator of size 2 that pushes `"a"`, advances once and throws. -/
def failing_text_populator : Populator :=
  ⟨2, .of .std_string, fun _ data => .ok data,
    ([.assign "a", .pre_increment], some (.other "boom"))⟩

/-- An adapter at cursor 0 over an array of two slots, the first of which holds
an object, with the pending value `"\xff"`. -/
def adapter_pending_invalid : string_array_output_iterator :=
  ⟨0, "\xff", some ⟨.NPY_OBJECT, 2, [some (.unicode 7 "old"), none]⟩⟩

/-- An adapter at cursor 1 over an array of three slots, the second of which
holds an object, with the pending value `"new"`. -/
def adapter_pending_new : string_array_output_iterator :=
  ⟨1, "new", some ⟨.NPY_OBJECT, 3, [some (.unicode 5 "x"), some (.unicode 7 "old"), none]⟩⟩

/-! ## Lemmas on lists -/

theorem set_length_append {α : Type} (l₁ : List α) (a b : α) (l₂ : List α) :
    (l₁ ++ a :: l₂).set l₁.length b = l₁ ++ b :: l₂ := by
  induction l₁ with
  | nil => rfl
  | cons x l ih => simp [ih]

theorem getElem?_length_append {α : Type} (l₁ : List α) (a : α) (l₂ : List α) :
    (l₁ ++ a :: l₂)[l₁.length]? = some a := by
  induction l₁ with
  | nil => simp
  | cons x l ih => simpa using ih

theorem text_objects_length (ss : List String) :
    ∀ id0, (text_objects id0 ss).length = ss.length := by
  induction ss with
  | nil => intro id0; rfl
  | cons s ss ih => intro id0; simp [text_objects, ih]

theorem text_objects_getElem? (ss : List String) :
    ∀ (id0 i : Nat) (hi : i < ss.length),
      (text_objects id0 ss)[i]? = some (some (PyObject.unicode (id0 + i) ss[i])) := by
  induction ss with
  | nil => intro id0 i hi; simp at hi
  | cons s ss ih =>
    intro id0 i hi
    cases i with
    | zero => simp [text_objects]
    | succ i =>
      have := ih (id0 + 1) i (by simpa using hi)
      simpa [text_objects, Nat.add_assoc, Nat.add_comm 1 i] using this

/-! ## The loops of the builders -/

/-- The arithmetic loop over elements that do not throw writes each of them to
its cell and returns. -/
theorem arithmetic_loop_ok {V : Type} (suf : List V) :
    ∀ (front tail : List (Except cpp_exception V)) (done rest : List (Option V)) (w : World),
      done.length = front.length → rest.length = suf.length →
      build_array_impl.arithmetic_loop ⟨front ++ (suf.map Except.ok ++ tail)⟩ suf.length
        front.length (done ++ rest) w = .returned (done ++ suf.map some) w := by
  induction suf with
  | nil =>
    intro front tail done rest w _ hr
    have : rest = [] := List.length_eq_zero.mp hr
    simp [build_array_impl.arithmetic_loop, this]
  | cons x suf ih =>
    intro front tail done rest w hd hr
    cases rest with
    | nil => simp at hr
    | cons r rest =>
      have hlen : rest.length = suf.length := by simpa using hr
      have h1 := ih (front ++ [.ok x]) tail (done ++ [some x]) rest w (by simp [hd]) hlen
      simp only [List.map_cons, List.length_cons, build_array_impl.arithmetic_loop,
        List.cons_append, getElem?_length_append]
      rw [if_pos (by simp [hd])]
      rw [← hd, set_length_append, hd]
      simpa [List.append_assoc] using h1

/-! ## C1: the arithmetic container builder -/

/-- Claim C1.  For every arithmetic element type `T` and every container `C`
of `T` values (the empty one included), when the allocation succeeds
`build_array` returns an array whose length is the length of `C`, whose tag is
`numpy_type<T>::id` and whose element `i` is `C[i]` for every index `i`. -/
theorem C1_build_array_arithmetic (h : Host) (w : World) (T : scalar_type) (C : List (c_type T))
    (halloc : h.simple_new_ok w.allocations C.length (numpy_type.id (.arithmetic T)) = true) :
    ∃ a w1, build_array.arithmetic h T (std_vector C) w = .returned (some a) w1 ∧
      a.dim = C.length ∧ a.data.length = C.length ∧
      a.type_num = numpy_type.id (.arithmetic T) ∧
      ∀ (i : Nat) (hi : i < C.length), a.data[i]? = some (some C[i]) := by
  have hloop := arithmetic_loop_ok C [] [] [] (List.replicate C.length none)
    ⟨w.allocations + 1, w.objects,
      w.trace ++ [Event.PyArray_SimpleNew C.length (numpy_type.id (.arithmetic T)) true]⟩
    rfl (by simp)
  simp only [List.nil_append, List.append_nil, List.length_nil] at hloop
  refine ⟨⟨numpy_type.id (.arithmetic T), C.length, C.map some⟩,
    ⟨w.allocations + 1, w.objects,
      w.trace ++ [Event.PyArray_SimpleNew C.length (numpy_type.id (.arithmetic T)) true]⟩,
    ?_, rfl, by simp, rfl, ?_⟩
  · simp only [build_array.arithmetic, build_array_impl.arithmetic, PyArray_SimpleNew,
      Container.size, std_vector, List.length_map, halloc, if_true, PyArray_DATA, Option.map,
      hloop]
  · intro i hi
    simp [List.getElem?_map, List.getElem?_eq_getElem hi]

/-- Witness of C1: the container `[1, 2, 3]` of `int32_t` gives length 3, the
tag `NPY_INT32` and the contents `[1, 2, 3]`. -/
theorem C1_build_array_arithmetic_witness :
    host_ok.simple_new_ok world0.allocations int32_123.length
        (numpy_type.id (.arithmetic .int32_t)) = true ∧
    ∃ a w1, build_array.arithmetic host_ok .int32_t (std_vector int32_123) world0 =
        .returned (some a) w1 ∧
      a.dim = 3 ∧ a.data.length = 3 ∧ a.type_num = NPY_TYPES.NPY_INT32 ∧
      ∀ (i : Nat) (hi : i < 3), a.data[i]? = some (some (int32_123.get ⟨i, hi⟩)) :=
  ⟨rfl, C1_build_array_arithmetic host_ok world0 .int32_t int32_123 rfl⟩

/-- The text loop over elements that do not throw and whose construction
succeeds fills the `NULL` slots it meets with the new text objects, releasing
nothing, and carries on with the rest of the loop. -/
theorem string_loop_advance (h : Host) (suf : List String) :
    ∀ (front tail : List (Except cpp_exception String)) (done rest : List (Option PyObject))
      (w : World) (m : Nat) (t : NPY_TYPES) (d : Nat),
      done.length = front.length →
      (∀ i s, suf[i]? = some s → h.unicode_ok (w.objects + i) s = true) →
      build_array_impl.string_loop h ⟨front ++ (suf.map Except.ok ++ tail)⟩ (suf.length + m)
        front.length (some ⟨t, d, done ++ (List.replicate suf.length none ++ rest)⟩) w =
      build_array_impl.string_loop h ⟨front ++ (suf.map Except.ok ++ tail)⟩ m
        (front.length + suf.length) (some ⟨t, d, done ++ (text_objects w.objects suf ++ rest)⟩)
        ⟨w.allocations, w.objects + suf.length, w.trace ++ construction_events w.objects suf⟩ := by
  induction suf with
  | nil =>
    intro front tail done rest w m t d _ _
    simp [text_objects, construction_events]
  | cons x suf ih =>
    intro front tail done rest w m t d hd hok
    have hx : h.unicode_ok w.objects x = true := by simpa using hok 0 x (by simp)
    have hrest : ∀ i s, suf[i]? = some s → h.unicode_ok (w.objects + 1 + i) s = true := by
      intro i s hs
      have := hok (i + 1) s (by simpa using hs)
      simpa [Nat.add_assoc, Nat.add_comm 1 i] using this
    have h1 := ih (front ++ [.ok x]) tail (done ++ [some (PyObject.unicode w.objects x)]) rest
      ⟨w.allocations, w.objects + 1, w.trace ++
        [Event.PyUnicode_FromStringAndSize x (some (PyObject.unicode w.objects x))]⟩ m t d
      (by simp [hd]) hrest
    have e1 : suf.length + 1 + m = (suf.length + m) + 1 := by omega
    simp only [List.length_cons, List.map_cons, List.cons_append, List.replicate_succ]
    rw [e1]
    simp only [build_array_impl.string_loop, PyArray_GETPTR1, getElem?_length_append]
    rw [← hd, getElem?_length_append]
    simp only [as_python_string, PyUnicode_FromStringAndSize, hx, if_true, store, Option.map,
      Py_XDECREF, set_length_append]
    rw [hd]
    simp only [List.append_assoc, List.singleton_append, List.length_append, List.length_singleton,
      List.length_cons] at h1 ⊢
    simp only [text_objects, construction_events]
    simp only [List.length_nil, Nat.zero_add] at h1
    rw [h1]
    have e2 : front.length + 1 + suf.length = front.length + (suf.length + 1) := by omega
    have e3 : w.objects + 1 + suf.length = w.objects + (suf.length + 1) := by omega
    rw [e2, e3]
    simp

/-- Success of the construction at every index, stated on optional lookups. -/
theorem unicode_ok_of_get (h : Host) (id0 : Nat) (C : List String)
    (hmake : ∀ (i : Nat) (hi : i < C.length), h.unicode_ok (id0 + i) C[i] = true) :
    ∀ i s, C[i]? = some s → h.unicode_ok (id0 + i) s = true := by
  intro i s hs
  rcases List.getElem?_eq_some.mp hs with ⟨hi, rfl⟩
  exact hmake i hi

/-! ## C2: the text container builder -/

/-- Claim C2.  For every container `C` of text values (the empty one
included), when the allocation and every text-object construction succeed
`build_array` returns an object-tagged array whose length is the length of `C`
and whose slot `i` holds a text object with content `C[i]` for every index
`i`. -/
theorem C2_build_array_text (h : Host) (w : World) (C : List String)
    (halloc : h.simple_new_ok w.allocations C.length .NPY_OBJECT = true)
    (hmake : ∀ (i : Nat) (hi : i < C.length), h.unicode_ok (w.objects + i) C[i] = true) :
    ∃ a w1, build_array.string h (std_vector C) w = .returned (some a) w1 ∧
      a.dim = C.length ∧ a.data.length = C.length ∧ a.type_num = NPY_TYPES.NPY_OBJECT ∧
      ∀ (i : Nat) (hi : i < C.length),
        a.data[i]? = some (some (PyObject.unicode (w.objects + i) C[i])) := by
  have hloop := string_loop_advance h C [] [] [] []
    ⟨w.allocations + 1, w.objects,
      w.trace ++ [Event.PyArray_SimpleNew C.length .NPY_OBJECT true]⟩ 0 .NPY_OBJECT C.length
    rfl (unicode_ok_of_get h w.objects C hmake)
  simp only [List.nil_append, List.append_nil, List.length_nil, Nat.add_zero, Nat.zero_add,
    build_array_impl.string_loop] at hloop
  refine ⟨⟨.NPY_OBJECT, C.length, text_objects w.objects C⟩,
    ⟨w.allocations + 1, w.objects + C.length,
      w.trace ++ [Event.PyArray_SimpleNew C.length .NPY_OBJECT true] ++
        construction_events w.objects C⟩,
    ?_, rfl, text_objects_length C w.objects, rfl, ?_⟩
  · simp only [build_array.string, build_array_impl.string, PyArray_SimpleNew,
      Container.size, std_vector, List.length_map, halloc, if_true, hloop]
  · intro i hi
    exact text_objects_getElem? C w.objects i hi

/-- Witness of C2: the container `["a", "bb", ""]` gives length 3 with slots
holding text objects of content `"a"`, `"bb"` and `""`. -/
theorem C2_build_array_text_witness :
    host_ok.simple_new_ok world0.allocations ["a", "bb", ""].length .NPY_OBJECT = true ∧
    (∀ (i : Nat) (hi : i < ["a", "bb", ""].length),
      host_ok.unicode_ok (world0.objects + i) (["a", "bb", ""].get ⟨i, hi⟩) = true) ∧
    ∃ a w1, build_array.string host_ok (std_vector ["a", "bb", ""]) world0 =
        .returned (some a) w1 ∧
      a.dim = 3 ∧ a.data.length = 3 ∧ a.type_num = NPY_TYPES.NPY_OBJECT ∧
      ∀ (i : Nat) (hi : i < 3),
        a.data[i]? = some (some (PyObject.unicode (0 + i) (["a", "bb", ""].get ⟨i, hi⟩))) :=
  ⟨rfl, fun _ _ => rfl,
    C2_build_array_text host_ok world0 ["a", "bb", ""] rfl (fun _ _ => rfl)⟩

/-- The loop of the catch block, run over a whole array, releases what every
slot holds and leaves `Py_None`, acquired once, in every slot. -/
theorem rollback_loop_all (rest : List (Option PyObject)) :
    ∀ (done : List (Option PyObject)) (w : World) (t : NPY_TYPES) (d : Nat),
      rollback_loop rest.length done.length (some ⟨t, d, done ++ rest⟩) w =
        some (some ⟨t, d, done ++ List.replicate rest.length (some PyObject.Py_None)⟩,
          ⟨w.allocations, w.objects, w.trace ++ rollback_events rest⟩) := by
  induction rest with
  | nil =>
    intro done w t d
    simp [rollback_loop, rollback_events]
  | cons p rest ih =>
    intro done w t d
    have h1 := ih (done ++ [some PyObject.Py_None])
    simp only [List.length_append, List.length_singleton, List.append_assoc,
      List.singleton_append] at h1
    simp only [List.length_cons, rollback_loop, PyArray_GETPTR1, store, Option.map,
      getElem?_length_append, set_length_append, List.replicate_succ]
    rw [h1]
    cases p <;> simp [Py_XDECREF, Py_XINCREF, rollback_events]

/-- The text loop of the range builder, started at position `i`, is the text
loop of the container builder started at index `i`. -/
theorem range_string_loop_eq (h : Host) (es : List (Except cpp_exception String)) (todo : Nat) :
    ∀ (i : Nat) (array : Option (PyArrayObject PyObject)) (w : World),
      build_array_from_range_impl.string_loop h todo ⟨es, i⟩ i array w =
        build_array_impl.string_loop h ⟨es⟩ todo i array w := by
  induction todo with
  | zero => intro i array w; rfl
  | succ n ih =>
    intro i array w
    simp only [build_array_from_range_impl.string_loop, build_array_impl.string_loop, ih]

/-- The arithmetic loop of the range builder, started at position `i`, is the
arithmetic loop of the container builder started at index `i`. -/
theorem range_arithmetic_loop_eq {V : Type} (es : List (Except cpp_exception V)) (todo : Nat) :
    ∀ (i : Nat) (data : List (Option V)) (w : World),
      build_array_from_range_impl.arithmetic_loop todo ⟨es, i⟩ i data w =
        build_array_impl.arithmetic_loop ⟨es⟩ todo i data w := by
  induction todo with
  | zero => intro i data w; rfl
  | succ n ih =>
    intro i data w
    simp only [build_array_from_range_impl.arithmetic_loop, build_array_impl.arithmetic_loop, ih]

/-- The distance between the two iterators of a container is its size. -/
theorem std_distance_range {V : Type} (c : Container V) :
    std_distance c.range = some c.size := by
  simp [std_distance, Container.range]

/-- The arithmetic range builder on the iterator pair of a container ends as
the arithmetic container builder does. -/
theorem range_arithmetic_eq (h : Host) (w : World) (T : scalar_type) (c : Container (c_type T)) :
    build_array_from_range.arithmetic h T c.range w = build_array.arithmetic h T c w := by
  simp only [build_array_from_range.arithmetic, build_array_from_range_impl.arithmetic,
    build_array.arithmetic, build_array_impl.arithmetic, std_distance_range]
  simp only [Container.range, range_arithmetic_loop_eq]

/-- The text range builder on the iterator pair of a container ends as the text
container builder does. -/
theorem range_string_eq (h : Host) (w : World) (c : Container String) :
    build_array_from_range.string h c.range w = build_array.string h c w := by
  simp only [build_array_from_range.string, build_array_from_range_impl.string,
    build_array.string, build_array_impl.string, std_distance_range]
  simp only [Container.range, range_string_loop_eq]

/-! ## C7: container and range builders agree -/

/-- Claim C7.  For every sequence of elements, arithmetic or text, the builder
`build_array_from_range` on the iterator pair over the sequence and the builder
`build_array` on the container holding it end in the same way from the same
state: when one returns an array the other returns an array of the same
length, tag and contents (and when one throws, so does the other). -/
theorem C7_container_and_range_agree (h : Host) (w : World) :
    (∀ (T : scalar_type) (c : Container (c_type T)),
      build_array_from_range.arithmetic h T c.range w = build_array.arithmetic h T c w) ∧
    (∀ c : Container String,
      build_array_from_range.string h c.range w = build_array.string h c w) :=
  ⟨fun T c => range_arithmetic_eq h w T c, fun c => range_string_eq h w c⟩

/-! ## C3: the rollback of the text builders -/

/-- The text container builder on a container whose element `k` throws, after
`k` elements whose construction succeeds: the catch block resets all slots and
frees the array, and the exception propagates. -/
theorem string_throw (h : Host) (w : World) (pre : List String) (e : cpp_exception)
    (rest : List (Except cpp_exception String))
    (halloc : h.simple_new_ok w.allocations (pre.length + (rest.length + 1)) .NPY_OBJECT = true)
    (hmake : ∀ (i : Nat) (hi : i < pre.length), h.unicode_ok (w.objects + i) pre[i] = true) :
    build_array.string h ⟨pre.map Except.ok ++ Except.error e :: rest⟩ w =
      .thrown e ⟨w.allocations + 1, w.objects + pre.length,
        w.trace ++ Event.PyArray_SimpleNew (pre.length + (rest.length + 1)) .NPY_OBJECT true ::
          (construction_events w.objects pre ++
            (rollback_events
                (text_objects w.objects pre ++ List.replicate (rest.length + 1) none) ++
              [Event.array_dealloc .NPY_OBJECT (pre.length + (rest.length + 1))
                (List.replicate (pre.length + (rest.length + 1)) (some PyObject.Py_None))]))⟩ := by
  have hadv := string_loop_advance h pre [] (Except.error e :: rest) []
    (List.replicate (rest.length + 1) none)
    ⟨w.allocations + 1, w.objects,
      w.trace ++ [Event.PyArray_SimpleNew (pre.length + (rest.length + 1)) .NPY_OBJECT true]⟩
    (rest.length + 1) .NPY_OBJECT (pre.length + (rest.length + 1))
    rfl (unicode_ok_of_get h w.objects pre hmake)
  simp only [List.nil_append, List.length_nil, Nat.zero_add, ← List.replicate_add] at hadv
  have hget : (text_objects w.objects pre ++ List.replicate (rest.length + 1) none)[pre.length]? =
      some (none : Option PyObject) := by
    have := getElem?_length_append (text_objects w.objects pre) (none : Option PyObject)
      (List.replicate rest.length none)
    rw [text_objects_length] at this
    simpa [List.replicate_succ] using this
  have hget2 : (pre.map (Except.ok : String → Except cpp_exception String) ++
      Except.error e :: rest)[pre.length]? = some (Except.error e) := by
    have := getElem?_length_append (pre.map (Except.ok : String → Except cpp_exception String))
      (Except.error e) rest
    simpa using this
  have hroll := rollback_loop_all
    (text_objects w.objects pre ++ List.replicate (rest.length + 1) none) []
    ⟨w.allocations + 1, w.objects + pre.length,
      (w.trace ++ [Event.PyArray_SimpleNew (pre.length + (rest.length + 1)) .NPY_OBJECT true]) ++
        construction_events w.objects pre⟩ .NPY_OBJECT (pre.length + (rest.length + 1))
  simp only [List.nil_append, List.length_nil, List.length_append, text_objects_length,
    List.length_replicate] at hroll
  simp only [build_array.string, build_array_impl.string, PyArray_SimpleNew, Container.size,
    List.length_append, List.length_map, List.length_cons, halloc, if_true, hadv]
  simp only [build_array_impl.string_loop, PyArray_GETPTR1, hget, hget2, hroll, Py_XDECREF_boxed]
  simp

/-- Claim C3, amended.  For every text container (or the iterator pair over
it) of length `n` whose element `k` throws when it is accessed, the `k`
elements before it having been constructed, the catch block releases once each
text object held in the slots `[0, k)` and forces every slot in `[0, n)`, so
also every slot in `[k, n)`, to `Py_None`, acquired once per slot, before the
array is freed; the exception is then rethrown.  Here `k` is the length of
`pre` and `n` is `k + (rest.length + 1)`. -/
theorem C3_rollback_resets_every_slot (h : Host) (w : World) (pre : List String)
    (e : cpp_exception) (rest : List (Except cpp_exception String))
    (halloc : h.simple_new_ok w.allocations (pre.length + (rest.length + 1)) .NPY_OBJECT = true)
    (hmake : ∀ (i : Nat) (hi : i < pre.length), h.unicode_ok (w.objects + i) pre[i] = true) :
    ∃ w1 : World,
      build_array.string h ⟨pre.map Except.ok ++ Except.error e :: rest⟩ w = .thrown e w1 ∧
      build_array_from_range.string h
        (Container.range ⟨pre.map Except.ok ++ Except.error e :: rest⟩) w = .thrown e w1 ∧
      w1.trace =
        w.trace ++ Event.PyArray_SimpleNew (pre.length + (rest.length + 1)) .NPY_OBJECT true ::
          (construction_events w.objects pre ++
            (rollback_events
                (text_objects w.objects pre ++ List.replicate (rest.length + 1) none) ++
              [Event.array_dealloc .NPY_OBJECT (pre.length + (rest.length + 1))
                (List.replicate (pre.length + (rest.length + 1))
                  (some PyObject.Py_None))])) := by
  refine ⟨_, string_throw h w pre e rest halloc hmake, ?_, rfl⟩
  rw [range_string_eq]
  exact string_throw h w pre e rest halloc hmake

/-- Witness of the amended C3: a container of size 3 whose element 1 throws. -/
theorem C3_rollback_resets_every_slot_witness :
    host_ok.simple_new_ok world0.allocations (["a"].length + (1 + 1))
        .NPY_OBJECT = true ∧
    (∀ (i : Nat) (hi : i < ["a"].length),
      host_ok.unicode_ok (world0.objects + i) (["a"].get ⟨i, hi⟩) = true) ∧
    ∃ w1 : World,
      build_array.string host_ok throwing_container world0 = .thrown (.other "boom") w1 ∧
      build_array_from_range.string host_ok throwing_container.range world0 =
        .thrown (.other "boom") w1 ∧
      w1.trace =
        [ Event.PyArray_SimpleNew 3 .NPY_OBJECT true,
          Event.PyUnicode_FromStringAndSize "a" (some (.unicode 0 "a")),
          Event.Py_DECREF (.unicode 0 "a"), Event.Py_INCREF .Py_None,
          Event.Py_INCREF .Py_None,
          Event.Py_INCREF .Py_None,
          Event.array_dealloc .NPY_OBJECT 3 [some .Py_None, some .Py_None, some .Py_None] ] :=
  ⟨rfl, fun _ _ => rfl,
    C3_rollback_resets_every_slot host_ok world0 ["a"] (.other "boom") [.ok "c"] rfl
      (fun _ _ => rfl)⟩

/-- Counterexample to C3 as stated: on a container of size 3 whose element 1
throws, the array is freed with `Py_None` in slot 0; it is not freed with slot
0 still holding the text object constructed for element 0. -/
theorem C3_slots_before_failure_are_reset :
    build_array.string host_ok throwing_container world0 =
      .thrown (.other "boom")
        ⟨1, 1,
          [ Event.PyArray_SimpleNew 3 .NPY_OBJECT true,
            Event.PyUnicode_FromStringAndSize "a" (some (.unicode 0 "a")),
            Event.Py_DECREF (.unicode 0 "a"), Event.Py_INCREF .Py_None,
            Event.Py_INCREF .Py_None,
            Event.Py_INCREF .Py_None,
            Event.array_dealloc .NPY_OBJECT 3 [some .Py_None, some .Py_None, some .Py_None] ]⟩ ∧
    ¬ ∃ w1 : World,
      build_array.string host_ok throwing_container world0 = .thrown (.other "boom") w1 ∧
      w1.trace.getLast? =
        some (Event.array_dealloc .NPY_OBJECT 3
          [some (.unicode 0 "a"), some .Py_None, some .Py_None]) := by
  refine ⟨rfl, ?_⟩
  rintro ⟨w1, h1, h2⟩
  have h3 : build_array.string host_ok throwing_container world0 =
      .thrown (.other "boom")
        ⟨1, 1,
          [ Event.PyArray_SimpleNew 3 .NPY_OBJECT true,
            Event.PyUnicode_FromStringAndSize "a" (some (.unicode 0 "a")),
            Event.Py_DECREF (.unicode 0 "a"), Event.Py_INCREF .Py_None,
            Event.Py_INCREF .Py_None,
            Event.Py_INCREF .Py_None,
            Event.array_dealloc .NPY_OBJECT 3 [some .Py_None, some .Py_None, some .Py_None] ]⟩ :=
    rfl
  rw [h3] at h1
  cases h1
  revert h2
  decide

/-! ## C4: a failed text-object construction -/

/-- The text container builder on a container in which the construction fails
for element `k` only (`k` is the length of `pre`): the array is returned with
`NULL` in slot `k`, and nothing is thrown. -/
theorem string_null_slot (h : Host) (w : World) (pre : List String) (s : String)
    (post : List String)
    (halloc : h.simple_new_ok w.allocations (pre.length + (post.length + 1)) .NPY_OBJECT = true)
    (hpre : ∀ (i : Nat) (hi : i < pre.length), h.unicode_ok (w.objects + i) pre[i] = true)
    (hs : h.unicode_ok (w.objects + pre.length) s = false)
    (hpost : ∀ (i : Nat) (hi : i < post.length),
      h.unicode_ok (w.objects + pre.length + 1 + i) post[i] = true) :
    build_array.string h (std_vector (pre ++ s :: post)) w =
      .returned
        (some ⟨.NPY_OBJECT, pre.length + (post.length + 1),
          text_objects w.objects pre ++
            none :: text_objects (w.objects + pre.length + 1) post⟩)
        ⟨w.allocations + 1, w.objects + pre.length + 1 + post.length,
          w.trace ++ Event.PyArray_SimpleNew (pre.length + (post.length + 1)) .NPY_OBJECT true ::
            (construction_events w.objects pre ++
              Event.PyUnicode_FromStringAndSize s none ::
                construction_events (w.objects + pre.length + 1) post)⟩ := by
  have hadv := string_loop_advance h pre [] (Except.ok s :: post.map Except.ok) []
    (List.replicate (post.length + 1) none)
    ⟨w.allocations + 1, w.objects,
      w.trace ++ [Event.PyArray_SimpleNew (pre.length + (post.length + 1)) .NPY_OBJECT true]⟩
    (post.length + 1) .NPY_OBJECT (pre.length + (post.length + 1))
    rfl (unicode_ok_of_get h w.objects pre hpre)
  simp only [List.nil_append, List.length_nil, Nat.zero_add, ← List.replicate_add] at hadv
  have hadv2 := string_loop_advance h post (pre.map Except.ok ++ [Except.ok s]) []
    (text_objects w.objects pre ++ [none]) []
    ⟨w.allocations + 1, w.objects + pre.length + 1,
      w.trace ++ Event.PyArray_SimpleNew (pre.length + (post.length + 1)) .NPY_OBJECT true ::
        (construction_events w.objects pre ++ [Event.PyUnicode_FromStringAndSize s none])⟩
    0 .NPY_OBJECT (pre.length + (post.length + 1))
    (by simp [text_objects_length])
    (unicode_ok_of_get h (w.objects + pre.length + 1) post hpost)
  simp only [List.append_nil, Nat.add_zero, List.append_assoc, List.singleton_append,
    List.length_append, List.length_map, List.length_singleton,
    build_array_impl.string_loop] at hadv2
  have hget : (text_objects w.objects pre ++ List.replicate (post.length + 1) none)[pre.length]? =
      some (none : Option PyObject) := by
    have := getElem?_length_append (text_objects w.objects pre) (none : Option PyObject)
      (List.replicate post.length none)
    rw [text_objects_length] at this
    simpa [List.replicate_succ] using this
  have hget2 : (pre.map (Except.ok : String → Except cpp_exception String) ++
      Except.ok s :: post.map Except.ok)[pre.length]? = some (Except.ok s) := by
    have := getElem?_length_append (pre.map (Except.ok : String → Except cpp_exception String))
      (Except.ok s) (post.map Except.ok)
    simpa using this
  have hset : (text_objects w.objects pre ++ List.replicate (post.length + 1) none).set
      pre.length none = text_objects w.objects pre ++ none :: List.replicate post.length none := by
    have := set_length_append (text_objects w.objects pre) (none : Option PyObject) none
      (List.replicate post.length none)
    rw [text_objects_length] at this
    simpa [List.replicate_succ] using this
  simp only [build_array.string, build_array_impl.string, PyArray_SimpleNew, Container.size,
    std_vector, List.map_append, List.map_cons, List.length_append, List.length_map,
    List.length_cons, halloc, if_true, hadv]
  simp only [build_array_impl.string_loop, PyArray_GETPTR1, hget, hget2, as_python_string,
    PyUnicode_FromStringAndSize, hs, store, Option.map, hset, Py_XDECREF]
  simp only [Bool.false_eq_true, if_false, List.append_assoc, List.cons_append,
    List.nil_append] at hadv2 ⊢
  rw [hset, hadv2]

/-- Claim C4 fails on the code.  On the container `["a", "\xff", "c"]`, whose
element 1 the text-object constructor rejects, `build_array` returns an array
whose slot 1 holds `NULL`: the result of `as_python_string` is stored without
a check, the loop carries on and no failure is propagated. -/
theorem C4_failed_construction_is_returned :
    build_array.string host_strict_utf8 (std_vector ["a", "\xff", "c"]) world0 =
      .returned (some ⟨.NPY_OBJECT, 3, [some (.unicode 0 "a"), none, some (.unicode 2 "c")]⟩)
        ⟨1, 3,
          [ Event.PyArray_SimpleNew 3 .NPY_OBJECT true,
            Event.PyUnicode_FromStringAndSize "a" (some (.unicode 0 "a")),
            Event.PyUnicode_FromStringAndSize "\xff" none,
            Event.PyUnicode_FromStringAndSize "c" (some (.unicode 2 "c")) ]⟩ :=
  rfl

/-! ## C5 and C6: the dispatch registry -/

/-- Claim C5.  For every populator whose type token is none of the eleven
registered tokens, `build_populator` throws `logic_error("cannot process
type")` and leaves the state as it found it: no array is allocated and no fill
method of the populator is called. -/
theorem C5_unregistered_type (h : Host) (populator : Populator) (w : World)
    (hnot : populator.get_type_index ∉
      [ type_index.of (.arithmetic .uint8_t), .of (.arithmetic .int8_t),
        .of (.arithmetic .uint16_t), .of (.arithmetic .int16_t),
        .of (.arithmetic .uint32_t), .of (.arithmetic .int32_t),
        .of (.arithmetic .uint64_t), .of (.arithmetic .int64_t),
        .of (.arithmetic .float), .of (.arithmetic .double), .of .std_string ]) :
    build_populator h populator w = .thrown (.logic_error "cannot process type") w := by
  unfold build_populator
  generalize populator.get_type_index = tok at hnot
  cases tok with
  | other name => rfl
  | of T =>
    exfalso
    apply hnot
    cases T with
    | std_string => simp
    | arithmetic T => cases T <;> simp

/-- Witness of C5: a populator that declares `bool`. -/
theorem C5_unregistered_type_witness :
    bool_populator.get_type_index ∉
      [ type_index.of (.arithmetic .uint8_t), .of (.arithmetic .int8_t),
        .of (.arithmetic .uint16_t), .of (.arithmetic .int16_t),
        .of (.arithmetic .uint32_t), .of (.arithmetic .int32_t),
        .of (.arithmetic .uint64_t), .of (.arithmetic .int64_t),
        .of (.arithmetic .float), .of (.arithmetic .double), .of .std_string ] ∧
    build_populator host_ok bool_populator world0 =
      .thrown (.logic_error "cannot process type") world0 :=
  ⟨by decide, C5_unregistered_type host_ok bool_populator world0 (by decide)⟩

/-- The registry maps the token of an arithmetic type `T` to the builder
`derived_insert_populator_impl<Populator, T>`. -/
theorem build_populator_dispatch (h : Host) (populator : Populator) (w : World) (T : scalar_type)
    (htok : populator.get_type_index = .of (.arithmetic T)) :
    build_populator h populator w = derived_insert_populator_impl.populate h T populator w := by
  unfold build_populator
  rw [htok]
  cases T <;> rfl

/-- Claim C6.  For every arithmetic type `T` and every populator that
declares the token of `T` and size `n`, when the allocation succeeds and the
fill does not throw, `build_populator` dispatches to the builder registered
for `T` and returns an array of length `n` and tag `numpy_type<T>::id`, after
one allocation and exactly one call of `insert_into_buffer`, made on the
storage of that array, which then holds what the call left there. -/
theorem C6_build_populator_arithmetic (h : Host) (populator : Populator) (w : World)
    (T : scalar_type) (filled : List (Option (c_type T)))
    (htok : populator.get_type_index = .of (.arithmetic T))
    (halloc : h.simple_new_ok w.allocations populator.size (numpy_type.id (.arithmetic T)) = true)
    (hfill : populator.insert_into_buffer T (List.replicate populator.size none) = .ok filled) :
    build_populator h populator w = derived_insert_populator_impl.populate h T populator w ∧
    build_populator h populator w =
      .returned (.bulk T ⟨numpy_type.id (.arithmetic T), populator.size, filled⟩)
        ⟨w.allocations + 1, w.objects,
          w.trace ++ [Event.PyArray_SimpleNew populator.size (numpy_type.id (.arithmetic T)) true,
            Event.insert_into_buffer T]⟩ := by
  refine ⟨build_populator_dispatch h populator w T htok, ?_⟩
  rw [build_populator_dispatch h populator w T htok]
  simp [derived_insert_populator_impl.populate, PyArray_SimpleNew, PyArray_DATA, halloc, hfill]

/-- Witness of C6: a populator that declares `double` with size 4 gives length
4 and the tag `NPY_DOUBLE`. -/
theorem C6_build_populator_arithmetic_witness :
    double_populator.get_type_index = .of (.arithmetic .double) ∧
    host_ok.simple_new_ok world0.allocations double_populator.size
      (numpy_type.id (.arithmetic .double)) = true ∧
    double_populator.insert_into_buffer .double (List.replicate double_populator.size none) =
      .ok [some 0, some 0, some 0, some 0] ∧
    build_populator host_ok double_populator world0 =
      derived_insert_populator_impl.populate host_ok .double double_populator world0 ∧
    build_populator host_ok double_populator world0 =
      .returned (.bulk .double ⟨.NPY_DOUBLE, 4, [some 0, some 0, some 0, some 0]⟩)
        ⟨1, 0, [Event.PyArray_SimpleNew 4 .NPY_DOUBLE true, Event.insert_into_buffer .double]⟩ :=
  ⟨rfl, rfl, rfl,
    C6_build_populator_arithmetic host_ok double_populator world0 .double
      [some 0, some 0, some 0, some 0] rfl rfl rfl⟩

/-! ## C8: the sequential output adapter -/

/-- Claim C8, amended.  For every adapter over an array with cursor `i` inside
the array and pending value `s`, when the construction of the text object for
`s` succeeds, one advance (pre- or post-increment) constructs a new text object
with content `s`, releases exactly once what slot `i` held (nothing when it
held `NULL`), stores the new object in slot `i` and moves the cursor to
`i + 1`; every other slot, the length of the array and the pending value are
unchanged. -/
theorem C8_advance (h : Host) (w : World) (it : string_array_output_iterator)
    (a : PyArrayObject PyObject) (ha : it.array = some a) (hi : it.i < a.data.length)
    (hmake : h.unicode_ok w.objects it.output = true) :
    string_array_output_iterator.pre_increment h it w =
      .returned
        ⟨it.i + 1, it.output,
          some ⟨a.type_num, a.dim, a.data.set it.i (some (PyObject.unicode w.objects it.output))⟩⟩
        ⟨w.allocations, w.objects + 1,
          w.trace ++ Event.PyUnicode_FromStringAndSize it.output
              (some (PyObject.unicode w.objects it.output)) :: release_events a.data[it.i]⟩ ∧
    string_array_output_iterator.post_increment h it w =
      string_array_output_iterator.pre_increment h it w ∧
    (a.data.set it.i (some (PyObject.unicode w.objects it.output)))[it.i]? =
      some (some (PyObject.unicode w.objects it.output)) ∧
    (a.data.set it.i (some (PyObject.unicode w.objects it.output))).length = a.data.length ∧
    ∀ j, j ≠ it.i →
      (a.data.set it.i (some (PyObject.unicode w.objects it.output)))[j]? = a.data[j]? := by
  refine ⟨?_, rfl, ?_, by simp, ?_⟩
  · simp only [string_array_output_iterator.pre_increment, ha, PyArray_GETPTR1,
      List.getElem?_eq_getElem hi, as_python_string, PyUnicode_FromStringAndSize, hmake, if_true,
      store, Option.map]
    cases a.data[it.i] <;> simp [Py_XDECREF, release_events]
  · simp [List.getElem?_set, hi]
  · intro j hj
    simp [List.getElem?_set, Ne.symm hj]

/-- Witness of the amended C8: an advance at cursor 1 of an array of three
slots. -/
theorem C8_advance_witness :
    adapter_pending_new.array =
      some ⟨.NPY_OBJECT, 3, [some (.unicode 5 "x"), some (.unicode 7 "old"), none]⟩ ∧
    adapter_pending_new.i < [some (PyObject.unicode 5 "x"), some (.unicode 7 "old"), none].length ∧
    host_ok.unicode_ok world0.objects adapter_pending_new.output = true ∧
    string_array_output_iterator.pre_increment host_ok adapter_pending_new world0 =
      .returned
        ⟨2, "new", some ⟨.NPY_OBJECT, 3, [some (.unicode 5 "x"), some (.unicode 0 "new"), none]⟩⟩
        ⟨0, 1, [Event.PyUnicode_FromStringAndSize "new" (some (.unicode 0 "new")),
          Event.Py_DECREF (.unicode 7 "old")]⟩ ∧
    string_array_output_iterator.post_increment host_ok adapter_pending_new world0 =
      string_array_output_iterator.pre_increment host_ok adapter_pending_new world0 ∧
    [some (PyObject.unicode 5 "x"), some (.unicode 0 "new"), none][1]? =
      some (some (PyObject.unicode 0 "new")) ∧
    [some (PyObject.unicode 5 "x"), some (.unicode 0 "new"), none].length = 3 ∧
    ∀ j, j ≠ 1 →
      [some (PyObject.unicode 5 "x"), some (.unicode 0 "new"), none][j]? =
        [some (PyObject.unicode 5 "x"), some (.unicode 7 "old"), none][j]? :=
  ⟨rfl, by decide, rfl,
    C8_advance host_ok world0 adapter_pending_new
      ⟨.NPY_OBJECT, 3, [some (.unicode 5 "x"), some (.unicode 7 "old"), none]⟩ rfl (by decide)
      rfl⟩

/-- Counterexample to C8 as stated: with the pending value `"\xff"`, which the
text-object constructor rejects, an advance releases what slot 0 held and
stores `NULL` there; no text object with the pending content is in the slot. -/
theorem C8_failed_construction_stores_null :
    string_array_output_iterator.pre_increment host_strict_utf8 adapter_pending_invalid world0 =
      .returned ⟨1, "\xff", some ⟨.NPY_OBJECT, 2, [none, none]⟩⟩
        ⟨0, 1, [Event.PyUnicode_FromStringAndSize "\xff" none,
          Event.Py_DECREF (.unicode 7 "old")]⟩ ∧
    ¬ ∃ (it1 : string_array_output_iterator) (w1 : World) (a : PyArrayObject PyObject)
        (id : Nat),
      string_array_output_iterator.pre_increment host_strict_utf8 adapter_pending_invalid
        world0 = .returned it1 w1 ∧
      it1.array = some a ∧ a.data[0]? = some (some (PyObject.unicode id "\xff")) := by
  refine ⟨rfl, ?_⟩
  rintro ⟨it1, w1, a, id, h1, h2, h3⟩
  have h4 : string_array_output_iterator.pre_increment host_strict_utf8 adapter_pending_invalid
      world0 = .returned ⟨1, "\xff", some ⟨.NPY_OBJECT, 2, [none, none]⟩⟩
        ⟨0, 1, [Event.PyUnicode_FromStringAndSize "\xff" none,
          Event.Py_DECREF (.unicode 7 "old")]⟩ := rfl
  rw [h4] at h1
  cases h1
  cases h2
  simp at h3

/-! ## C9: a failure while a text populator fills the array -/

/-- A populator that pushes values whose construction succeeds fills the `NULL`
slots from the cursor on with the new text objects. -/
theorem run_pushes (h : Host) (ss : List String) :
    ∀ (done rest : List (Option PyObject)) (out : String) (w : World) (t : NPY_TYPES) (d : Nat),
      (∀ i s, ss[i]? = some s → h.unicode_ok (w.objects + i) s = true) →
      run_adapter_ops h (pushes ss)
        ⟨done.length, out, some ⟨t, d, done ++ (List.replicate ss.length none ++ rest)⟩⟩ w =
      some (⟨done.length + ss.length, last_output out ss,
          some ⟨t, d, done ++ (text_objects w.objects ss ++ rest)⟩⟩,
        ⟨w.allocations, w.objects + ss.length, w.trace ++ construction_events w.objects ss⟩) := by
  induction ss with
  | nil =>
    intro done rest out w t d _
    simp [pushes, run_adapter_ops, last_output, text_objects, construction_events]
  | cons x ss ih =>
    intro done rest out w t d hok
    have hx : h.unicode_ok w.objects x = true := by simpa using hok 0 x (by simp)
    have hrest : ∀ i s, ss[i]? = some s → h.unicode_ok (w.objects + 1 + i) s = true := by
      intro i s hs
      have := hok (i + 1) s (by simpa using hs)
      simpa [Nat.add_assoc, Nat.add_comm 1 i] using this
    have h1 := ih (done ++ [some (PyObject.unicode w.objects x)]) rest x
      ⟨w.allocations, w.objects + 1, w.trace ++
        [Event.PyUnicode_FromStringAndSize x (some (PyObject.unicode w.objects x))]⟩ t d hrest
    simp only [List.length_append, List.length_singleton, List.append_assoc,
      List.singleton_append] at h1
    simp only [pushes, run_adapter_ops, string_array_output_iterator.assign,
      string_array_output_iterator.pre_increment, List.length_cons, List.replicate_succ,
      List.cons_append, PyArray_GETPTR1, getElem?_length_append, as_python_string,
      PyUnicode_FromStringAndSize, hx, if_true, store, Option.map, set_length_append,
      Py_XDECREF, h1, last_output, text_objects, construction_events]
    have e2 : done.length + 1 + ss.length = done.length + (ss.length + 1) := by omega
    have e3 : w.objects + 1 + ss.length = w.objects + (ss.length + 1) := by omega
    rw [e2, e3]

/-- The dispatch on a text populator of size `k + m` that pushes `k` values and
then throws: the array is freed with the `k` text objects in its first slots
and `NULL` in the `m` others; no slot is set to `Py_None`. -/
theorem populate_string_throw (h : Host) (w : World) (populator : Populator)
    (ss : List String) (e : cpp_exception) (m : Nat)
    (htok : populator.get_type_index = .of .std_string)
    (hsize : populator.size = ss.length + m)
    (hfill : populator.insert_and_forget = (pushes ss, some e))
    (halloc : h.simple_new_ok w.allocations (ss.length + m) .NPY_OBJECT = true)
    (hmake : ∀ (i : Nat) (hi : i < ss.length), h.unicode_ok (w.objects + i) ss[i] = true) :
    build_populator h populator w =
      .thrown e ⟨w.allocations + 1, w.objects + ss.length,
        w.trace ++ Event.PyArray_SimpleNew (ss.length + m) .NPY_OBJECT true ::
          Event.insert_and_forget ::
            (construction_events w.objects ss ++
              [Event.array_dealloc .NPY_OBJECT (ss.length + m)
                (text_objects w.objects ss ++ List.replicate m none)])⟩ := by
  have hrun := run_pushes h ss [] (List.replicate m none) ""
    ⟨w.allocations + 1, w.objects,
      w.trace ++ [Event.PyArray_SimpleNew (ss.length + m) .NPY_OBJECT true] ++
        [Event.insert_and_forget]⟩ .NPY_OBJECT (ss.length + m)
    (unicode_ok_of_get h w.objects ss hmake)
  simp only [List.nil_append, List.length_nil, Nat.zero_add, ← List.replicate_add] at hrun
  have hdisp : build_populator h populator w =
      derived_insert_populator_impl.populate_string h populator w := by
    unfold build_populator
    rw [htok]
    rfl
  rw [hdisp]
  simp only [derived_insert_populator_impl.populate_string, PyArray_SimpleNew, hsize, halloc,
    if_true, hfill, string_array_output_iterator.init, numpy_type.id, hrun, Py_XDECREF_boxed]
  simp

/-- Claim C9 fails on the code.  On a text populator of size 2 that throws
after one advance, `build_populator` frees the array with slot 0 still holding
the text object and slot 1 holding `NULL`: the catch block of `populate` only
releases the array, it does not force any slot to `Py_None` as the catch
blocks of the text builders do. -/
theorem C9_populate_string_skips_rollback :
    build_populator host_ok failing_text_populator world0 =
      .thrown (.other "boom")
        ⟨1, 1,
          [ Event.PyArray_SimpleNew 2 .NPY_OBJECT true,
            Event.insert_and_forget,
            Event.PyUnicode_FromStringAndSize "a" (some (.unicode 0 "a")),
            Event.array_dealloc .NPY_OBJECT 2 [some (.unicode 0 "a"), none] ]⟩ :=
  rfl

/-! ## C10: a failed allocation in the scalar builders -/

/-- The scalar container builder hands a `NULL` array to `PyArray_DATA`
whenever the allocation fails. -/
theorem arithmetic_null_array (h : Host) (w : World) (T : scalar_type)
    (container : Container (c_type T))
    (halloc : h.simple_new_ok w.allocations container.size (numpy_type.id (.arithmetic T)) =
      false) :
    build_array.arithmetic h T container w = .undefined_behaviour := by
  simp [build_array.arithmetic, build_array_impl.arithmetic, PyArray_SimpleNew, PyArray_DATA,
    halloc]

/-- The scalar range builder hands a `NULL` array to `PyArray_DATA` whenever
the allocation fails. -/
theorem range_arithmetic_null_array (h : Host) (w : World) (T : scalar_type)
    (range : Iterator (c_type T) × Iterator (c_type T)) (n : Nat)
    (hdist : std_distance range = some n)
    (halloc : h.simple_new_ok w.allocations n (numpy_type.id (.arithmetic T)) = false) :
    build_array_from_range.arithmetic h T range w = .undefined_behaviour := by
  simp [build_array_from_range.arithmetic, build_array_from_range_impl.arithmetic, hdist,
    PyArray_SimpleNew, PyArray_DATA, halloc]

/-- Claim C10 fails on the code.  When the allocation yields `NULL`, both
scalar builders pass the `NULL` array to `PyArray_DATA`, which dereferences
it: the behaviour is undefined, and no failure is propagated to the caller. -/
theorem C10_null_array_is_dereferenced :
    build_array.arithmetic host_out_of_memory .int32_t (std_vector int32_123) world0 =
      .undefined_behaviour ∧
    build_array_from_range.arithmetic host_out_of_memory .int32_t
      (std_vector int32_123).range world0 = .undefined_behaviour :=
  ⟨rfl, rfl⟩

end NumpyHelper
